import Mathlib

/-!
# Verification of the Vaultix SDK HTTP client (`src/client.ts`)

Shallow embedding of the Vaultix SDK's request executor (`VaultixClient`)
and its error type (`VaultixAPIError`).  The network is abstracted by an
oracle `Nat → FetchOutcome` giving, for each attempt index (the code's
`retryCount`), the outcome of the `fetch` call made on that attempt.
Exceptions are modelled as values (`ReqResult.failure`), `await`/promises
collapse to plain function calls, and the ghost fields `attempts` and
`delays` record how many fetch attempts were performed and which backoff
sleeps the executor ran, in chronological order.
-/

namespace Vaultix

/-- Modelled from the spec: the repository imports `VaultixError` from
`src/types.ts`, which is not in the sources; the shape is the error
taxonomy the spec describes (category `type`, `code`, `message`, optional
offending `param`, optional `doc_url`), matching every construction site in
`src/client.ts`. -/
structure VaultixError where
  type : String
  code : String
  message : String
  param : Option String := none
  doc_url : Option String := none
deriving DecidableEq, Repr

/-- The structured error class `VaultixAPIError` of `src/client.ts`
(lines 13-29): category `type`, `code`, `message`, optional `param`,
optional `docUrl`, and the HTTP `statusCode`. -/
structure VaultixAPIError where
  type : String
  code : String
  message : String
  param : Option String
  docUrl : Option String
  statusCode : Nat
deriving DecidableEq, Repr

/-- The constructor of `VaultixAPIError`: copies the fields of the
`VaultixError` payload and attaches the HTTP status code. -/
def mkVaultixAPIError (e : VaultixError) (statusCode : Nat) : VaultixAPIError :=
  { type := e.type, code := e.code, message := e.message,
    param := e.param, docUrl := e.doc_url, statusCode := statusCode }

/-- Modelled from the spec: `VaultixConfig` also lives in the missing
`src/types.ts`. The spec's configuration surface is "secret key (must be
prefixed to distinguish live/test mode), base URL override, timeout, max
retry count"; the key is required, the rest optional, as the constructor's
use of `||` / `??` defaulting shows.  JS `undefined` is `none`. -/
structure VaultixConfig where
  secretKey : String
  baseUrl : Option String := none
  timeout : Option Nat := none
  maxRetries : Option Nat := none
deriving DecidableEq, Repr

/-- JavaScript `String.prototype.startsWith` (the TS source calls the JS
method): modelled structurally over the character sequences so that it
evaluates. -/
def strStartsWith (s pre : String) : Bool :=
  pre.data.isPrefixOf s.data

def DEFAULT_BASE_URL : String := "https://console.velon.app/api"
def DEFAULT_TIMEOUT : Nat := 30000
def DEFAULT_MAX_RETRIES : Nat := 3

/-- The state of a constructed `VaultixClient` (lines 31-35): all four
fields are `readonly` and private. -/
structure VaultixClient where
  secretKey : String
  baseUrl : String
  timeout : Nat
  maxRetries : Nat
deriving DecidableEq, Repr

/-- The `VaultixClient` constructor (lines 37-50).  A thrown `Error` is
`Except.error` with the message.  JS falsiness: a string is falsy iff
empty, a number iff zero, and `x || d` replaces falsy `x` by `d`, while
`x ?? d` replaces only `undefined`/`null`. -/
def mkVaultixClient (config : VaultixConfig) : Except String VaultixClient :=
  if config.secretKey = "" then
    .error "Secret key is required"
  else if ¬ strStartsWith config.secretKey "sk_" then
    .error "Invalid secret key format. Must start with sk_live_ or sk_test_"
  else
    .ok { secretKey := config.secretKey
          baseUrl := match config.baseUrl with
            | some b => if b = "" then DEFAULT_BASE_URL else b
            | none => DEFAULT_BASE_URL
          timeout := match config.timeout with
            | some t => if t = 0 then DEFAULT_TIMEOUT else t
            | none => DEFAULT_TIMEOUT
          maxRetries := config.maxRetries.getD DEFAULT_MAX_RETRIES }

/-- The `isTestMode` getter (lines 55-57). -/
def VaultixClient.isTestMode (c : VaultixClient) : Bool :=
  strStartsWith c.secretKey "sk_test_"

/-- The method `shouldRetry` (lines 172-177). -/
def VaultixClient.shouldRetry (c : VaultixClient) (statusCode retryCount : Nat) : Bool :=
  if c.maxRetries ≤ retryCount then false
  else decide (500 ≤ statusCode) || decide (statusCode = 429)

/-- The method `getRetryDelay` (lines 179-182): exponential backoff 1s, 2s, 4s, ...
capped at 10s. -/
def getRetryDelay (retryCount : Nat) : Nat :=
  min (1000 * 2 ^ retryCount) 10000

/-- HTTP methods accepted by `VaultixClient.request`. -/
inductive Method where
  | GET | POST | PUT | DELETE
deriving DecidableEq, Repr

/-- A JavaScript value stored in the `Record<string, unknown>` payload:
the cases `String(value)` and `JSON.stringify` distinguish. -/
inductive JSVal where
  | undefined
  | null
  | str (s : String)
  | num (n : Int)
  | bool (b : Bool)
deriving DecidableEq, Repr

/-- JavaScript `String(value)` on a `JSVal`. -/
def JSVal.jsString : JSVal → String
  | .undefined => "undefined"
  | .null => "null"
  | .str s => s
  | .num n => toString n
  | .bool b => if b then "true" else "false"

/-- A `Record<string, unknown>` payload: an ordered list of key/value
entries, as `Object.entries` iterates them. -/
def JSRecord : Type := List (String × JSVal)

/-- JSON string escaping used by `JSON.stringify` (quote, backslash,
newline; other control characters do not occur in our inputs). -/
def escapeJson (s : String) : String :=
  String.join (s.toList.map fun ch =>
    if ch = '"' then "\\\""
    else if ch = '\\' then "\\\\"
    else if ch = '\n' then "\\n"
    else ch.toString)

/-- Serialization `JSON.stringify` of one value; `none` for `undefined`, which
`JSON.stringify` omits from objects. -/
def JSVal.toJson : JSVal → Option String
  | .undefined => none
  | .null => some "null"
  | .str s => some ("\"" ++ escapeJson s ++ "\"")
  | .num n => some (toString n)
  | .bool b => some (if b then "true" else "false")

/-- Serialization `JSON.stringify` of a record payload. -/
def jsonStringify (d : JSRecord) : String :=
  "\x7b" ++ String.intercalate ","
      (d.filterMap fun kv =>
        (kv.2.toJson).map fun j => "\"" ++ escapeJson kv.1 ++ "\":" ++ j)
    ++ "\x7d"

/-- The query-parameter loop of `request` (lines 71-77): for each entry of
`data`, append `(key, String(value))` to the URL's search params unless
the value is `undefined` or `null`.  `searchParams.append` adds at the
end, so the loop is a left fold over the entries. -/
def appendSearchParams (init : List (String × String)) (d : JSRecord) :
    List (String × String) :=
  d.foldl (fun ps kv =>
    if ¬ kv.2 = .undefined ∧ ¬ kv.2 = .null then ps ++ [(kv.1, kv.2.jsString)]
    else ps) init

/-- The search params of the request URL: the loop of lines 71-77 runs
only when the method is GET and `data` is present (a record object is
always truthy); the URL starts with no search params. -/
def buildSearchParams (method : Method) (data : Option JSRecord) :
    List (String × String) :=
  match method, data with
  | .GET, some d => appendSearchParams [] d
  | _, _ => []

/-- The request body (line 90): `method !== 'GET' && data ?
JSON.stringify(data) : undefined`. -/
def buildBody (method : Method) (data : Option JSRecord) : Option String :=
  match method, data with
  | .GET, _ => none
  | _, none => none
  | _, some d => some (jsonStringify d)

/-- The parsed JSON body of an HTTP response, as `request` consumes it:
its optional `error` field (a structured `VaultixError`) plus the rest of
the document, abstracted as a string. -/
structure JsonBody where
  error : Option VaultixError
  raw : String
deriving DecidableEq, Repr

/-- Outcome of one `fetch` attempt, supplied by the network oracle:
a response with its HTTP status and parsed JSON body, an `AbortError`
(the per-attempt timeout fired), or any other thrown error (network
failure, carrying `error.message`). -/
inductive FetchOutcome where
  | response (status : Nat) (json : JsonBody)
  | abortError
  | networkError (message : String)
deriving DecidableEq, Repr

/-- Property `Response.ok` per the fetch standard: status in the range 200-299. -/
def responseOk (status : Nat) : Bool :=
  200 ≤ status ∧ status < 300

/-- How `request` exits: a normal return of the parsed JSON body, or a
thrown `VaultixAPIError`. -/
inductive ReqResult where
  | success (json : JsonBody)
  | failure (e : VaultixAPIError)
deriving DecidableEq, Repr

/-- Result of a call to `request`, with ghost instrumentation: `client`
is the client object after the call (the code never assigns to its
`readonly` fields, so the embedding threads it unchanged through the
recursion), `attempts` counts the `fetch` calls performed, and `delays`
lists the backoff sleeps in chronological order. -/
structure ReqOutput where
  client : VaultixClient
  result : ReqResult
  attempts : Nat
  delays : List Nat
deriving DecidableEq, Repr

/-- The fallback error of line 106: `json.error || {...}`. -/
def unknownError : VaultixError :=
  { type := "api_error", code := "unknown_error",
    message := "An unknown error occurred" }

/-- The error thrown for a non-ok response (lines 106-110):
`new VaultixAPIError(json.error || {type:'api_error', code:'unknown_error',
message:'An unknown error occurred'}, response.status)`. -/
def apiErrorOfBody (json : JsonBody) (status : Nat) : VaultixAPIError :=
  mkVaultixAPIError (json.error.getD unknownError) status

/-- The timeout error (lines 121-127). -/
def timeoutError (c : VaultixClient) : VaultixAPIError :=
  mkVaultixAPIError
    { type := "api_error", code := "timeout",
      message := "Request timed out after " ++ toString c.timeout ++ "ms" }
    408

/-- The network error thrown once the retry budget is exhausted
(lines 136-140); `message` is `error.message`. -/
def networkAPIError (message : String) : VaultixAPIError :=
  mkVaultixAPIError
    { type := "api_error", code := "network_error", message := message } 0

/-- The executor `VaultixClient.request` (lines 62-142).  The oracle gives the outcome
of the fetch on each attempt (indexed by `retryCount`).  Control flow of
the source: on a response, parse the JSON; if not ok and `shouldRetry`
holds, sleep `getRetryDelay retryCount` and recurse with
`retryCount + 1`; if not ok otherwise, throw the structured error built
from the body; if ok, return the body.  In the catch block: a thrown
`VaultixAPIError` is rethrown (here: the recursive call's failure is
returned unchanged); an `AbortError` becomes the timeout error,
with no retry; any other error retries while `retryCount < maxRetries`
and otherwise becomes the network error. -/
def VaultixClient.request (c : VaultixClient) (oracle : Nat → FetchOutcome)
    (method : Method) (path : String) (data : Option JSRecord)
    (retryCount : Nat) : ReqOutput :=
  match oracle retryCount with
  | .response status json =>
      if responseOk status then
        { client := c, result := .success json, attempts := 1, delays := [] }
      else if h : c.shouldRetry status retryCount then
        let r := c.request oracle method path data (retryCount + 1)
        { r with attempts := r.attempts + 1,
                 delays := getRetryDelay retryCount :: r.delays }
      else
        { client := c, result := .failure (apiErrorOfBody json status),
          attempts := 1, delays := [] }
  | .abortError =>
      { client := c, result := .failure (timeoutError c),
        attempts := 1, delays := [] }
  | .networkError message =>
      if retryCount < c.maxRetries then
        let r := c.request oracle method path data (retryCount + 1)
        { r with attempts := r.attempts + 1,
                 delays := getRetryDelay retryCount :: r.delays }
      else
        { client := c, result := .failure (networkAPIError message),
          attempts := 1, delays := [] }
termination_by c.maxRetries - retryCount
decreasing_by
  · unfold VaultixClient.shouldRetry at h
    split at h
    · exact absurd h (by simp)
    · omega
  · omega

/-- The `get` helper (lines 147-149). -/
def VaultixClient.get (c : VaultixClient) (oracle : Nat → FetchOutcome)
    (path : String) (params : Option JSRecord := none) : ReqOutput :=
  c.request oracle .GET path params 0

/-- The `post` helper (lines 154-156). -/
def VaultixClient.post (c : VaultixClient) (oracle : Nat → FetchOutcome)
    (path : String) (data : Option JSRecord := none) : ReqOutput :=
  c.request oracle .POST path data 0

/-- The `put` helper (lines 161-163). -/
def VaultixClient.put (c : VaultixClient) (oracle : Nat → FetchOutcome)
    (path : String) (data : Option JSRecord := none) : ReqOutput :=
  c.request oracle .PUT path data 0

/-- The `delete` helper (lines 168-170). -/
def VaultixClient.del (c : VaultixClient) (oracle : Nat → FetchOutcome)
    (path : String) : ReqOutput :=
  c.request oracle .DELETE path none 0

/-- The `Vaultix` facade class of `src/vaultix.ts` (named `VaultixSDK`
here because the file's namespace is already `Vaultix`): holds the
`VaultixClient` its constructor builds from the configuration (resource
proxies carry no state of their own and are omitted). -/
structure VaultixSDK where
  client : VaultixClient
deriving DecidableEq, Repr

/-- The `Vaultix` constructor (`src/vaultix.ts` line 95):
`this.client = new VaultixClient(config)`. -/
def mkVaultix (config : VaultixConfig) : Except String VaultixSDK :=
  (mkVaultixClient config).map fun c => { client := c }

/-- The getter `Vaultix.isTestMode` (`src/vaultix.ts` lines 113-115): delegates to
the client. -/
def VaultixSDK.isTestMode (v : VaultixSDK) : Bool :=
  v.client.isTestMode

/-! ## Spec-side predicates -/

/-- The outcomes the retry policy treats as retryable: an HTTP response
with a 5xx or 429 status, or a network failure.  An `AbortError`
(timeout) is not among them. -/
def FetchOutcome.retryable : FetchOutcome → Bool
  | .response status _ => decide (500 ≤ status) || decide (status = 429)
  | .abortError => false
  | .networkError _ => true

/-- The outcomes that are failures of their attempt: a non-ok response,
a timeout, or a network error. -/
def FetchOutcome.failed : FetchOutcome → Bool
  | .response status _ => ! responseOk status
  | .abortError => true
  | .networkError _ => true

/-- The translation table from a failing fetch outcome to the
`VaultixAPIError` the executor throws for it. -/
def surfacedError (c : VaultixClient) : FetchOutcome → VaultixAPIError
  | .response status json => apiErrorOfBody json status
  | .abortError => timeoutError c
  | .networkError message => networkAPIError message

/-! ## Helper lemmas about the executor -/

/-- One retry step: on a retryable outcome below the retry budget,
`request` sleeps the backoff delay and re-enters with `retryCount + 1`;
the recursive call's result is passed through unchanged. -/
lemma request_retry_step (c : VaultixClient) (o : Nat → FetchOutcome)
    (m : Method) (p : String) (d : Option JSRecord) (n : Nat)
    (hr : (o n).retryable = true) (hn : n < c.maxRetries) :
    c.request o m p d n =
      { c.request o m p d (n + 1) with
        attempts := (c.request o m p d (n + 1)).attempts + 1,
        delays := getRetryDelay n :: (c.request o m p d (n + 1)).delays } := by
  rw [VaultixClient.request.eq_def]
  cases ho : o n with
  | response s jb =>
      rw [ho] at hr
      simp only [FetchOutcome.retryable, Bool.or_eq_true, decide_eq_true_eq] at hr
      have hok : ¬ responseOk s = true := by
        simp only [responseOk, Bool.and_eq_true, decide_eq_true_eq]
        omega
      have hsr : c.shouldRetry s n = true := by
        unfold VaultixClient.shouldRetry
        rw [if_neg (by omega)]
        simp only [Bool.or_eq_true, decide_eq_true_eq]
        exact hr
      simp [hok, hsr]
  | abortError => rw [ho] at hr; simp [FetchOutcome.retryable] at hr
  | networkError msg => simp [hn]

/-- Exhaustion: if every attempt from `n` through `maxRetries` has a
retryable outcome, the executor performs `maxRetries + 1 - n` fetch
attempts, sleeps the backoff delays for retry counts `n, ..., maxRetries
- 1`, and surfaces the error translated from the final attempt's
outcome. -/
lemma request_exhausts (c : VaultixClient) (o : Nat → FetchOutcome)
    (m : Method) (p : String) (d : Option JSRecord) :
    ∀ j n, c.maxRetries - n = j → n ≤ c.maxRetries →
      (∀ k, n ≤ k → k ≤ c.maxRetries → (o k).retryable = true) →
      c.request o m p d n =
        { client := c,
          result := .failure (surfacedError c (o c.maxRetries)),
          attempts := c.maxRetries + 1 - n,
          delays := (List.range' n (c.maxRetries - n)).map getRetryDelay } := by
  intro j
  induction j with
  | zero =>
      intro n hj hle hall
      have hn : n = c.maxRetries := by omega
      have hr := hall n le_rfl hle
      rw [VaultixClient.request.eq_def]
      cases ho : o n with
      | response s jb =>
          rw [ho] at hr
          simp only [FetchOutcome.retryable, Bool.or_eq_true, decide_eq_true_eq] at hr
          have hok : ¬ responseOk s = true := by
            simp only [responseOk, Bool.and_eq_true, decide_eq_true_eq]
            omega
          have hsr : ¬ c.shouldRetry s n = true := by
            unfold VaultixClient.shouldRetry
            rw [if_pos (by omega)]
            simp
          rw [hn] at ho
          simp [hok, hsr, surfacedError, ho, hj]
          omega
      | abortError => rw [ho] at hr; simp [FetchOutcome.retryable] at hr
      | networkError msg =>
          rw [hn] at ho
          have hlt : ¬ n < c.maxRetries := by omega
          simp [hlt, surfacedError, ho, hj]
          omega
  | succ j ih =>
      intro n hj hle hall
      have hn : n < c.maxRetries := by omega
      rw [request_retry_step c o m p d n (hall n le_rfl (by omega)) hn,
        ih (n + 1) (by omega) (by omega)
          (fun k hk1 hk2 => hall k (by omega) hk2)]
      have h2 : c.maxRetries - n = (c.maxRetries - (n + 1)) + 1 := by omega
      rw [h2, List.range'_succ]
      simp only [List.map_cons]
      congr 1
      omega

/-- Every run of the executor either returns the JSON body of an actual
ok response among the attempts, or fails with the `VaultixAPIError`
translated from an actual failed attempt outcome. -/
lemma request_surfaces (c : VaultixClient) (o : Nat → FetchOutcome)
    (m : Method) (p : String) (d : Option JSRecord) (n : Nat) :
    (∃ jb, (c.request o m p d n).result = .success jb ∧
      ∃ k s, o k = .response s jb ∧ responseOk s = true) ∨
    (∃ e, (c.request o m p d n).result = .failure e ∧
      ∃ k, (o k).failed = true ∧ e = surfacedError c (o k)) := by
  induction n using VaultixClient.request.induct c o m p d with
  | case1 x s jb ho hok =>
      left
      rw [VaultixClient.request.eq_def, ho]
      exact ⟨jb, by simp [hok], x, s, ho, hok⟩
  | case2 x s jb ho hok hr ih =>
      rw [VaultixClient.request.eq_def, ho]
      simpa [hok, hr] using ih
  | case3 x s jb ho hok hr =>
      right
      rw [VaultixClient.request.eq_def, ho]
      refine ⟨apiErrorOfBody jb s, by simp [hok, hr], x, ?_, by simp [surfacedError, ho]⟩
      simp [FetchOutcome.failed, ho, hok]
  | case4 x ho =>
      right
      rw [VaultixClient.request.eq_def, ho]
      exact ⟨timeoutError c, rfl, x, by simp [FetchOutcome.failed, ho],
        by simp [surfacedError, ho]⟩
  | case5 x msg ho hlt ih =>
      rw [VaultixClient.request.eq_def, ho]
      simpa [hlt] using ih
  | case6 x msg ho hlt =>
      right
      rw [VaultixClient.request.eq_def, ho]
      exact ⟨networkAPIError msg, by simp [hlt], x,
        by simp [FetchOutcome.failed, ho], by simp [surfacedError, ho]⟩

/-- The executor never changes the client object it runs on. -/
lemma request_client (c : VaultixClient) (o : Nat → FetchOutcome) (m : Method)
    (p : String) (d : Option JSRecord) (n : Nat) :
    (c.request o m p d n).client = c := by
  induction n using VaultixClient.request.induct c o m p d with
  | case1 x s jb ho hok =>
      rw [VaultixClient.request.eq_def, ho]; simp [hok]
  | case2 x s jb ho hok hr ih =>
      rw [VaultixClient.request.eq_def, ho]; simp [hok, hr, ih]
  | case3 x s jb ho hok hr =>
      rw [VaultixClient.request.eq_def, ho]; simp [hok, hr]
  | case4 x ho =>
      rw [VaultixClient.request.eq_def, ho]
  | case5 x msg ho hlt ih =>
      rw [VaultixClient.request.eq_def, ho]; simp [hlt, ih]
  | case6 x msg ho hlt =>
      rw [VaultixClient.request.eq_def, ho]; simp [hlt]

/-- Facts about the constructed client, read off the constructor.  -/
lemma mkVaultixClient_ok (cfg : VaultixConfig) (c : VaultixClient)
    (h : mkVaultixClient cfg = .ok c) :
    c.secretKey = cfg.secretKey ∧
    c.baseUrl = (match cfg.baseUrl with
      | some b => if b = "" then DEFAULT_BASE_URL else b
      | none => DEFAULT_BASE_URL) ∧
    c.timeout = (match cfg.timeout with
      | some t => if t = 0 then DEFAULT_TIMEOUT else t
      | none => DEFAULT_TIMEOUT) ∧
    c.maxRetries = cfg.maxRetries.getD DEFAULT_MAX_RETRIES := by
  unfold mkVaultixClient at h
  split at h
  · exact absurd h (by simp)
  · split at h
    · exact absurd h (by simp)
    · injection h with h
      subst h
      exact ⟨rfl, rfl, rfl, rfl⟩

/-! ## Concrete fixtures used to evaluate the executor -/

/-- A concrete client: test-mode key and the constructor defaults. -/
def cEx : VaultixClient :=
  { secretKey := "sk_test_abc", baseUrl := DEFAULT_BASE_URL,
    timeout := 30000, maxRetries := 3 }

/-- A concrete parsed JSON body with no `error` field. -/
def bodyEx : JsonBody := { error := none, raw := "r" }

/-! ## The claims -/

/-- C1: for every HTTP response with status ≥ 500 or status 429, and for
every transport-level (network) failure, the executor retries the call
while the retry count is below `maxRetries` — the retryable outcome is
never surfaced as an error early, and each retry adds one fetch attempt —
and only once the budget is exhausted (all of attempts `0..maxRetries`
failing retryably) does it surface a failure, after `maxRetries + 1`
fetch attempts in total. -/
theorem claim_C1 (c : VaultixClient) (o : Nat → FetchOutcome)
    (m : Method) (p : String) (d : Option JSRecord) :
    (∀ n, n < c.maxRetries → (o n).retryable = true →
      (c.request o m p d n).result = (c.request o m p d (n + 1)).result ∧
      (c.request o m p d n).attempts = (c.request o m p d (n + 1)).attempts + 1) ∧
    ((∀ k, k ≤ c.maxRetries → (o k).retryable = true) →
      (c.request o m p d 0).result = .failure (surfacedError c (o c.maxRetries)) ∧
      (c.request o m p d 0).attempts = c.maxRetries + 1) := by
  constructor
  · intro n hn hr
    rw [request_retry_step c o m p d n hr hn]
    exact ⟨rfl, rfl⟩
  · intro hall
    rw [request_exhausts c o m p d c.maxRetries 0 (by omega) (by omega)
      (fun k _ hk => hall k hk)]
    exact ⟨rfl, rfl⟩

/-- Witness for C1: a client with `maxRetries = 3` against a server that
always answers 503 surfaces the failure of the last attempt after 4
fetch attempts. -/
theorem claim_C1_witness :
    (cEx.request (fun _ => .response 503 bodyEx) .GET "/v1/charges" none 0).result
      = .failure (surfacedError cEx (.response 503 bodyEx)) ∧
    (cEx.request (fun _ => .response 503 bodyEx) .GET "/v1/charges" none 0).attempts
      = 3 + 1 :=
  (claim_C1 cEx (fun _ => .response 503 bodyEx) .GET "/v1/charges" none).2
    (fun _ _ => rfl)

/-- C2: the backoff delay slept between attempt `n` and attempt `n + 1`
equals `min (1000 * 2 ^ n) 10000` milliseconds: 1000 ms before the first
retry, doubling each retry, capped at 10000 ms; and whenever the executor
retries after attempt `n`, that exact delay is the one it sleeps. -/
theorem claim_C2 (n : Nat) :
    getRetryDelay n = min (1000 * 2 ^ n) 10000 ∧
    getRetryDelay 0 = 1000 ∧
    getRetryDelay (n + 1) = min (2 * getRetryDelay n) 10000 ∧
    ∀ (c : VaultixClient) (o : Nat → FetchOutcome) (m : Method) (p : String)
      (d : Option JSRecord), n < c.maxRetries → (o n).retryable = true →
      (c.request o m p d n).delays
        = getRetryDelay n :: (c.request o m p d (n + 1)).delays := by
  refine ⟨rfl, rfl, ?_, ?_⟩
  · simp only [getRetryDelay, pow_succ]
    ring_nf
    omega
  · intro c o m p d hn hr
    rw [request_retry_step c o m p d n hr hn]

/-- Witness for C2: against a server that always answers 503, the delay
slept after attempt 0 is `getRetryDelay 0 = 1000`. -/
theorem claim_C2_witness :
    getRetryDelay 7 = 10000 ∧
    (cEx.request (fun _ => .response 503 bodyEx) .GET "/v1/charges" none 0).delays
      = getRetryDelay 0
        :: (cEx.request (fun _ => .response 503 bodyEx) .GET "/v1/charges" none 1).delays :=
  ⟨(claim_C2 7).1.trans (by decide),
   (claim_C2 0).2.2.2 cEx (fun _ => .response 503 bodyEx) .GET "/v1/charges" none
     (by decide) rfl⟩

/-- C7: no operation of the client mutates local state: `request` and the
`get`/`post`/`put`/`delete` helpers leave the client's configuration
fields (`secretKey`, `baseUrl`, `timeout`, `maxRetries`) exactly as they
were — the client object threaded through the call comes back unchanged. -/
theorem claim_C7 (c : VaultixClient) (o : Nat → FetchOutcome) (m : Method)
    (p : String) (d params : Option JSRecord) (n : Nat) :
    (c.request o m p d n).client = c ∧
    (c.get o p params).client = c ∧
    (c.post o p d).client = c ∧
    (c.put o p d).client = c ∧
    (c.del o p).client = c :=
  ⟨request_client c o m p d n, request_client c o .GET p params 0,
   request_client c o .POST p d 0, request_client c o .PUT p d 0,
   request_client c o .DELETE p none 0⟩

/-- Counterexample to C3 as stated: with the full retry budget available
(`maxRetries = 3`, attempt count 0), an attempt that times out is NOT
retried — the executor performs exactly one fetch attempt and surfaces
the timeout error immediately, whereas the claim says a timeout counts as
a retryable failure like 5xx/429/network failures until the budget is
exhausted. -/
theorem claim_C3_counterexample :
    cEx.maxRetries = 3 ∧
    (cEx.request (fun _ => .abortError) .GET "/v1/charges" none 0).attempts = 1 ∧
    (cEx.request (fun _ => .abortError) .GET "/v1/charges" none 0).delays = [] ∧
    (cEx.request (fun _ => .abortError) .GET "/v1/charges" none 0).result
      = .failure
          { type := "api_error", code := "timeout",
            message := "Request timed out after 30000ms",
            param := none, docUrl := none, statusCode := 408 } := by
  refine ⟨rfl, ?_, ?_, ?_⟩
  · rw [VaultixClient.request.eq_def]
  · rw [VaultixClient.request.eq_def]
  · rw [VaultixClient.request.eq_def]; rfl

/-- C3 (amended): when a single request attempt exceeds the configured
timeout, the executor fails that attempt with a dedicated timeout error
(code `timeout`, HTTP status 408, distinct from the network and unknown
error codes); but a timed-out attempt is never retried: the timeout error
is thrown at once, with no further fetch attempts and no backoff sleeps,
regardless of the remaining retry budget. -/
theorem claim_C3 (c : VaultixClient) (o : Nat → FetchOutcome) (m : Method)
    (p : String) (d : Option JSRecord) (n : Nat) (h : o n = .abortError) :
    c.request o m p d n =
      { client := c, result := .failure (timeoutError c),
        attempts := 1, delays := [] } ∧
    (timeoutError c).code = "timeout" ∧
    (timeoutError c).statusCode = 408 ∧
    (∀ msg, (timeoutError c).code ≠ (networkAPIError msg).code) ∧
    (∀ jb s, jb.error = none →
      (timeoutError c).code ≠ (apiErrorOfBody jb s).code) := by
  refine ⟨?_, rfl, rfl, fun msg => by simp [timeoutError, networkAPIError,
    mkVaultixAPIError], fun jb s he => by simp [timeoutError, apiErrorOfBody,
    unknownError, mkVaultixAPIError, he]⟩
  rw [VaultixClient.request.eq_def, h]

/-- Witness for C3 (amended): evaluated on a concrete client whose
attempt 0 times out. -/
theorem claim_C3_witness :
    cEx.request (fun _ => .abortError) .POST "/v1/charges" none 0 =
      { client := cEx, result := .failure (timeoutError cEx),
        attempts := 1, delays := [] } :=
  (claim_C3 cEx (fun _ => .abortError) .POST "/v1/charges" none 0 rfl).1

/-- C4: the claim says construction must throw for every key lacking the
`sk_live_`/`sk_test_` prefix — and the constructor's own error message
says the same — but the code only tests the prefix `sk_`: the key
`sk_abc` carries neither required prefix, yet construction succeeds.
(Keys with a required prefix do construct successfully, and keys without
even the `sk_` prefix are rejected with the message naming the two
required prefixes.) -/
theorem claim_C4 :
    strStartsWith "sk_abc" "sk_live_" = false ∧
    strStartsWith "sk_abc" "sk_test_" = false ∧
    mkVaultixClient { secretKey := "sk_abc" } =
      .ok { secretKey := "sk_abc", baseUrl := DEFAULT_BASE_URL,
            timeout := DEFAULT_TIMEOUT, maxRetries := DEFAULT_MAX_RETRIES } ∧
    mkVaultixClient { secretKey := "sk_live_a" } =
      .ok { secretKey := "sk_live_a", baseUrl := DEFAULT_BASE_URL,
            timeout := DEFAULT_TIMEOUT, maxRetries := DEFAULT_MAX_RETRIES } ∧
    mkVaultixClient { secretKey := "sk_test_a" } =
      .ok { secretKey := "sk_test_a", baseUrl := DEFAULT_BASE_URL,
            timeout := DEFAULT_TIMEOUT, maxRetries := DEFAULT_MAX_RETRIES } ∧
    mkVaultixClient { secretKey := "pk_abc" } =
      .error "Invalid secret key format. Must start with sk_live_ or sk_test_" ∧
    mkVaultixClient { secretKey := "" } = .error "Secret key is required" :=
  ⟨rfl, rfl, rfl, rfl, rfl, rfl, rfl⟩

/-- C5: for every successfully constructed SDK instance, `isTestMode` is
true if and only if the configured secret key starts with the test-mode
prefix `sk_test_`; the client-level getter agrees. -/
theorem claim_C5 (cfg : VaultixConfig) (v : VaultixSDK)
    (h : mkVaultix cfg = .ok v) :
    (v.isTestMode = true ↔ strStartsWith cfg.secretKey "sk_test_" = true) ∧
    v.isTestMode = v.client.isTestMode ∧
    v.client.secretKey = cfg.secretKey := by
  unfold mkVaultix at h
  cases hc : mkVaultixClient cfg with
  | error e => rw [hc] at h; exact absurd h (by simp [Except.map])
  | ok c =>
      rw [hc] at h
      simp only [Except.map, Except.ok.injEq] at h
      have hk := (mkVaultixClient_ok cfg c hc).1
      subst h
      exact ⟨by simp [VaultixSDK.isTestMode, VaultixClient.isTestMode, hk],
        rfl, hk⟩

/-- Witness for C5: the client constructed from the key `sk_test_abc`
reports test mode. -/
theorem claim_C5_witness :
    ({ client := cEx } : VaultixSDK).isTestMode = true :=
  (claim_C5 { secretKey := "sk_test_abc" } { client := cEx } rfl).1.mpr rfl

/-- C6: the executor surfaces every failure as the single structured
error type `VaultixAPIError`: a run either returns normally with the JSON
body of an actual ok response among its attempts, or fails with the
`VaultixAPIError` that the translation table produces from an actual
failed attempt outcome (non-ok response, timeout, or network failure) —
so no failure is swallowed into a normal return, no other error shape
escapes, and each surfaced error carries the category, code, message,
optional param and HTTP status of its `VaultixAPIError` translation. -/
theorem claim_C6 (c : VaultixClient) (o : Nat → FetchOutcome) (m : Method)
    (p : String) (d : Option JSRecord) (n : Nat) :
    (∃ jb, (c.request o m p d n).result = .success jb ∧
      ∃ k s, o k = .response s jb ∧ responseOk s = true) ∨
    (∃ e, (c.request o m p d n).result = .failure e ∧
      ∃ k, (o k).failed = true ∧ e = surfacedError c (o k)) :=
  request_surfaces c o m p d n

/-- The query loop is extensionally a filter-and-convert over the record
entries. -/
lemma appendSearchParams_eq (d : JSRecord) :
    ∀ init, appendSearchParams init d =
      init ++ d.filterMap (fun kv =>
        if ¬ kv.2 = JSVal.undefined ∧ ¬ kv.2 = JSVal.null
        then some (kv.1, kv.2.jsString) else none) := by
  induction d with
  | nil => intro init; simp [appendSearchParams]
  | cons kv tl ih =>
      intro init
      have hstep : appendSearchParams init (kv :: tl)
          = appendSearchParams
              (if ¬ kv.2 = JSVal.undefined ∧ ¬ kv.2 = JSVal.null
               then init ++ [(kv.1, kv.2.jsString)] else init) tl := by
        simp [appendSearchParams]
      rw [hstep]
      by_cases hkv : ¬ kv.2 = JSVal.undefined ∧ ¬ kv.2 = JSVal.null
      · rw [if_pos hkv, ih]
        simp [List.filterMap_cons, hkv.1, hkv.2]
      · rw [if_neg hkv, ih]
        rcases not_and_or.mp hkv with hkv1 | hkv2
        · have : kv.2 = JSVal.undefined := not_not.mp hkv1
          simp [List.filterMap_cons, this]
        · have : kv.2 = JSVal.null := not_not.mp hkv2
          simp [List.filterMap_cons, this]

/-- C8: for every GET request with a parameter record, exactly the
entries whose value is neither `undefined` nor `null` appear in the query
string, each converted by `String(value)`, in order; `undefined`/`null`
entries are omitted; and for a non-GET method the record is serialized as
the JSON request body instead and never reaches the query string, while a
GET request never carries a body. -/
theorem claim_C8 (d : JSRecord) (data : Option JSRecord) (m : Method) :
    buildSearchParams .GET (some d) =
      d.filterMap (fun kv =>
        if ¬ kv.2 = JSVal.undefined ∧ ¬ kv.2 = JSVal.null
        then some (kv.1, kv.2.jsString) else none) ∧
    (¬ m = .GET →
      buildSearchParams m data = [] ∧
      buildBody m (some d) = some (jsonStringify d)) ∧
    buildBody .GET data = none ∧
    buildSearchParams m none = [] := by
  refine ⟨by simpa using appendSearchParams_eq d [], ?_, ?_, ?_⟩
  · intro hm
    cases m with
    | GET => exact absurd rfl hm
    | POST => exact ⟨by cases data <;> rfl, rfl⟩
    | PUT => exact ⟨by cases data <;> rfl, rfl⟩
    | DELETE => exact ⟨by cases data <;> rfl, rfl⟩
  · cases data <;> rfl
  · cases m <;> rfl

/-- A concrete parameter record exercising every `JSVal` shape. -/
def dEx : JSRecord :=
  [("limit", .num 20), ("cursor", .undefined), ("status", .str "paid"),
   ("customer", .null), ("livemode", .bool true)]

/-- Witness for C8: on the concrete record, GET keeps exactly the
non-`undefined`, non-`null` entries in the query, and POST serializes the
record as the JSON body with an empty query. -/
theorem claim_C8_witness :
    buildSearchParams .GET (some dEx) =
      [("limit", "20"), ("status", "paid"), ("livemode", "true")] ∧
    buildSearchParams .POST (some dEx) = [] ∧
    buildBody .POST (some dEx) = some (jsonStringify dEx) := by
  refine ⟨(claim_C8 dEx (some dEx) .GET).1.trans (by decide), ?_, ?_⟩
  · exact ((claim_C8 dEx (some dEx) .POST).2.1 (by decide)).1
  · exact ((claim_C8 dEx (some dEx) .POST).2.1 (by decide)).2

/-- C9: client-side fabricated status codes.  A timeout failure carries
HTTP status 408 and code `timeout`; a network failure surfaced once the
retry budget is exhausted carries HTTP status 0 and code `network_error`;
and a non-ok, non-retried HTTP response whose JSON body lacks an `error`
field is surfaced with type `api_error`, code `unknown_error`, and the
response's own status. -/
theorem claim_C9 (c : VaultixClient) (o : Nat → FetchOutcome) (m : Method)
    (p : String) (d : Option JSRecord) (n : Nat) :
    (o n = .abortError →
      (c.request o m p d n).result = .failure (timeoutError c) ∧
      (timeoutError c).statusCode = 408 ∧ (timeoutError c).code = "timeout") ∧
    (∀ msg, o n = .networkError msg → c.maxRetries ≤ n →
      (c.request o m p d n).result = .failure (networkAPIError msg) ∧
      (networkAPIError msg).statusCode = 0 ∧
      (networkAPIError msg).code = "network_error") ∧
    (∀ s jb, o n = .response s jb → jb.error = none → responseOk s = false →
      c.shouldRetry s n = false →
      (c.request o m p d n).result = .failure (mkVaultixAPIError unknownError s) ∧
      (mkVaultixAPIError unknownError s).type = "api_error" ∧
      (mkVaultixAPIError unknownError s).code = "unknown_error" ∧
      (mkVaultixAPIError unknownError s).statusCode = s) := by
  refine ⟨?_, ?_, ?_⟩
  · intro h
    rw [VaultixClient.request.eq_def, h]
    exact ⟨rfl, rfl, rfl⟩
  · intro msg h hn
    rw [VaultixClient.request.eq_def, h]
    have hlt : ¬ n < c.maxRetries := by omega
    simp [hlt, networkAPIError, mkVaultixAPIError]
  · intro s jb h he hok hsr
    rw [VaultixClient.request.eq_def, h]
    simp [hok, hsr, apiErrorOfBody, he, unknownError, mkVaultixAPIError]

/-- Witness for C9: the three fabricated-error shapes evaluated on
concrete runs — a timeout at attempt 0, a network failure at attempt 3
(the budget), and a 404 response with no `error` field. -/
theorem claim_C9_witness :
    (cEx.request (fun _ => .abortError) .GET "/v1/orders" none 0).result
      = .failure (timeoutError cEx) ∧
    (cEx.request (fun _ => .networkError "socket hang up") .POST "/v1/orders" none 3).result
      = .failure (networkAPIError "socket hang up") ∧
    (cEx.request (fun _ => .response 404 bodyEx) .GET "/v1/orders" none 0).result
      = .failure (mkVaultixAPIError unknownError 404) :=
  ⟨((claim_C9 cEx (fun _ => .abortError) .GET "/v1/orders" none 0).1 rfl).1,
   ((claim_C9 cEx (fun _ => .networkError "socket hang up") .POST "/v1/orders" none 3).2.1
     "socket hang up" rfl (by decide)).1,
   ((claim_C9 cEx (fun _ => .response 404 bodyEx) .GET "/v1/orders" none 0).2.2
     404 bodyEx rfl rfl (by decide) (by decide)).1⟩

/-- C10: constructor defaulting is asymmetric.  `maxRetries` uses
null-coalescing, so a configured 0 is honored (and the executor then
performs exactly one fetch attempt, surfacing the first retryable failure
with no retry), while an absent `maxRetries` defaults to 3; `timeout` and
`baseUrl` use `||`, so the falsy values 0 and "" are silently replaced by
the defaults (30000 ms, the default base URL) just as absent values are,
and only a non-zero timeout is honored. -/
theorem claim_C10 (cfg : VaultixConfig) (c : VaultixClient)
    (h : mkVaultixClient cfg = .ok c) :
    (cfg.maxRetries = some 0 → c.maxRetries = 0) ∧
    (cfg.maxRetries = none → c.maxRetries = DEFAULT_MAX_RETRIES) ∧
    (cfg.timeout = some 0 → c.timeout = DEFAULT_TIMEOUT) ∧
    (cfg.timeout = none → c.timeout = DEFAULT_TIMEOUT) ∧
    (∀ t, cfg.timeout = some t → ¬ t = 0 → c.timeout = t) ∧
    (cfg.baseUrl = some "" → c.baseUrl = DEFAULT_BASE_URL) ∧
    (c.maxRetries = 0 →
      ∀ o m p d n, ((o n : FetchOutcome)).retryable = true →
        (c.request o m p d n).attempts = 1 ∧
        (c.request o m p d n).result = .failure (surfacedError c (o n))) := by
  obtain ⟨-, hb, ht, hm⟩ := mkVaultixClient_ok cfg c h
  refine ⟨?_, ?_, ?_, ?_, ?_, ?_, ?_⟩
  · intro he; rw [hm, he]; rfl
  · intro he; rw [hm, he]; rfl
  · intro he; rw [ht, he]; rfl
  · intro he; rw [ht, he]
  · intro t he hne; rw [ht, he]; simp [hne]
  · intro he; rw [hb, he]; rfl
  · intro hz o m p d n hr
    have hsr : ∀ s, ¬ c.shouldRetry s n = true := by
      intro s
      unfold VaultixClient.shouldRetry
      rw [if_pos (by omega)]
      simp
    rw [VaultixClient.request.eq_def]
    cases ho : o n with
    | response s jb =>
        rw [ho] at hr
        simp only [FetchOutcome.retryable, Bool.or_eq_true, decide_eq_true_eq] at hr
        have hok : ¬ responseOk s = true := by
          simp only [responseOk, Bool.and_eq_true, decide_eq_true_eq]
          omega
        simp [hok, hsr s, surfacedError, ho]
    | abortError => rw [ho] at hr; simp [FetchOutcome.retryable] at hr
    | networkError msg =>
        have : ¬ n < c.maxRetries := by omega
        simp [this, surfacedError, ho]

/-- Witness for C10: a configuration with `maxRetries = 0`,
`timeout = 0` and `baseUrl = ""` yields a client with no retries, the
default timeout and the default base URL, and its executor surfaces the
first 503 immediately after a single fetch attempt. -/
theorem claim_C10_witness :
    ({ secretKey := "sk_live_k", baseUrl := DEFAULT_BASE_URL,
       timeout := DEFAULT_TIMEOUT, maxRetries := 0 } : VaultixClient).maxRetries = 0 ∧
    ({ secretKey := "sk_live_k", baseUrl := DEFAULT_BASE_URL,
       timeout := DEFAULT_TIMEOUT, maxRetries := 0 } : VaultixClient).timeout
      = DEFAULT_TIMEOUT ∧
    (({ secretKey := "sk_live_k", baseUrl := DEFAULT_BASE_URL,
        timeout := DEFAULT_TIMEOUT, maxRetries := 0 } : VaultixClient).request
      (fun _ => .response 503 bodyEx) .GET "/v1/balance" none 0).attempts = 1 := by
  have h : mkVaultixClient
      { secretKey := "sk_live_k", baseUrl := some "", timeout := some 0,
        maxRetries := some 0 } =
      .ok { secretKey := "sk_live_k", baseUrl := DEFAULT_BASE_URL,
            timeout := DEFAULT_TIMEOUT, maxRetries := 0 } := rfl
  refine ⟨(claim_C10 _ _ h).1 rfl, (claim_C10 _ _ h).2.2.1 rfl, ?_⟩
  exact ((claim_C10 _ _ h).2.2.2.2.2.2 rfl (fun _ => .response 503 bodyEx)
    .GET "/v1/balance" none 0 rfl).1

end Vaultix
